import Mathlib

/-!
Verification of the bootstrap layer of the TalkTheTalk server:
the database-connection supervisor (`setupDatabase`), the request
pipeline of `ChattyServer` (stage ordering, 404 catch-all, global
error handler), and the real-time gateway — createSocketIO and
startServer.

The definitions below are a shallow embedding of the TypeScript
source.  Asynchronous effects (promise resolution, event emission,
process exit) are made explicit: connection attempts consume an
outcome from an oracle, event emission is a fold over a list of
emitted event names, and `process.exit` is recorded in the state.
-/

namespace TalkTheTalk

/-- Outcome of one `mongoose.connect(DATABASE_URL)` attempt: the promise
either resolves (`.then` branch runs) or rejects (`.catch` branch runs). -/
inductive ConnectOutcome
  | success
  | failure
deriving Repr, DecidableEq

/-- Log line written by the `.then` branch of `connect` in setupDatabase.ts. -/
def dbInfoMsg : String := "[+] Successfully connected to database..."

/-- Log line written by the `.catch` branch of `connect` in setupDatabase.ts. -/
def dbErrMsg : String := "[x] Error connecting to database"

/-- The literal first argument of `mongoose.connection.on(...)` in
setupDatabase.ts: the event name under which the `connect` handler is
registered.  Note this is a log-message string, not an event name. -/
def registeredDisconnectEvent : String :=
  "[*] MongoDb disconnected, trying to reconnect..."

/-- The event name mongoose actually emits on `mongoose.connection` when an
established connection is lost (Node EventEmitter / mongoose semantics:
a disconnect notification is the emission of the event named
"disconnected").  External-library semantics, part of the environment. -/
def mongooseDisconnectedEvent : String := "disconnected"

/-- Observable state of the supervisor: how many times `connect` has run,
the `process.exit` code if the process exited, and the log lines written. -/
structure SupState where
  connectCalls : Nat
  exitCode : Option Nat
  logs : List String
deriving Repr, DecidableEq

/-- One run of the `connect` closure of setupDatabase.ts, given the outcome
of the `mongoose.connect` promise: on success it logs readiness; on
failure it logs the error and calls `process.exit(1)`. -/
def connectStep (o : ConnectOutcome) (s : SupState) : SupState :=
  match o with
  | .success =>
      { s with connectCalls := s.connectCalls + 1, logs := s.logs ++ [dbInfoMsg] }
  | .failure =>
      { s with connectCalls := s.connectCalls + 1, logs := s.logs ++ [dbErrMsg],
               exitCode := some 1 }

/-- Delivery of one emitted event on `mongoose.connection`: Node EventEmitter
semantics invoke a handler only when the emitted name equals the name it
was registered under.  setupDatabase.ts registered `connect` under
`registeredDisconnectEvent`, so only that exact string triggers a
reconnect.  Nothing runs once the process has exited.  The oracle
`outcomes` gives the result of the n-th `mongoose.connect` attempt. -/
def emitStep (outcomes : Nat → ConnectOutcome) (s : SupState) (ev : String) :
    SupState :=
  if s.exitCode.isSome then s
  else if ev = registeredDisconnectEvent then connectStep (outcomes s.connectCalls) s
  else s

/-- The default export of setupDatabase.ts: call `connect()` once, register
`connect` on `mongoose.connection` under `registeredDisconnectEvent`, then
let the environment emit `events` in order. -/
def setupDatabase (outcomes : Nat → ConnectOutcome) (events : List String) :
    SupState :=
  let s1 := connectStep (outcomes 0) { connectCalls := 0, exitCode := none, logs := [] }
  events.foldl (emitStep outcomes) s1

/-- Number of reconnect attempts in a supervisor state: `connect` runs beyond
the initial one. -/
def SupState.reconnects (s : SupState) : Nat := s.connectCalls - 1

/-- One registered middleware/handler of the Express pipeline, in the order
ChattyServer.start wires them: securityMiddleware registers cookieSession,
hpp, helmet and cors; standardMiddleware registers compression, json and
urlencoded; routesMiddleware registers the application routes;
globalErrorHandler registers the catch-all and the error classifier. -/
inductive Stage
  | cookieSession
  | hpp
  | helmet
  | cors
  | compression
  | json
  | urlencoded
  | routes
  | notFoundCatchAll
  | errorClassifier
deriving Repr, DecidableEq

/-- Stages registered by ChattyServer.securityMiddleware, in registration
order (app.use calls). -/
def securityMiddlewareStages : List Stage :=
  [Stage.cookieSession, Stage.hpp, Stage.helmet, Stage.cors]

/-- Stages registered by ChattyServer.standardMiddleware, in registration
order. -/
def standardMiddlewareStages : List Stage :=
  [Stage.compression, Stage.json, Stage.urlencoded]

/-- Stage registered by ChattyServer.routesMiddleware (applicationRoutes). -/
def routesMiddlewareStages : List Stage := [Stage.routes]

/-- Stages registered by ChattyServer.globalErrorHandler: the app.all
catch-all first, then the four-argument error middleware. -/
def globalErrorHandlerStages : List Stage :=
  [Stage.notFoundCatchAll, Stage.errorClassifier]

/-- The full registration order produced by ChattyServer.start, which calls
securityMiddleware, standardMiddleware, routesMiddleware and
globalErrorHandler on the app in that order.  The list is built once at
startup and is immutable, so every request traverses the same order. -/
def startStages : List Stage :=
  securityMiddlewareStages ++ standardMiddlewareStages ++
    routesMiddlewareStages ++ globalErrorHandlerStages

/-- Phase of a stage, for stating the phase ordering of the pipeline:
security (0), body/size normalization (1), route dispatch (2), not-found
catch-all (3), error classifier (4). -/
def Stage.phase : Stage → Nat
  | .cookieSession => 0
  | .hpp => 0
  | .helmet => 0
  | .cors => 0
  | .compression => 1
  | .json => 1
  | .urlencoded => 1
  | .routes => 2
  | .notFoundCatchAll => 3
  | .errorClassifier => 4

/-- An options object for the cors package / socket.io cors field.  Fields
absent from a given source literal are `none`. -/
structure CorsOptions where
  origin : String
  credentials : Option Bool
  optionsSuccessStatus : Option Nat
  methods : List String
deriving Repr, DecidableEq

/-- The options object passed to `cors(...)` inside
ChattyServer.securityMiddleware. -/
def httpCorsOptions (clientUrl : String) : CorsOptions :=
  { origin := clientUrl
    credentials := some true
    optionsSuccessStatus := some 200
    methods := ["GET", "POST", "PUT", "DELETE", "OPTIONS"] }

/-- The `cors` field of the options object passed to the socket.io `Server`
constructor inside createSocketIO of ChattyServer (no credentials or
optionsSuccessStatus fields there). -/
def socketCorsOptions (clientUrl : String) : CorsOptions :=
  { origin := clientUrl
    credentials := none
    optionsSuccessStatus := none
    methods := ["GET", "POST", "PUT", "DELETE", "OPTIONS"] }

/-- An inbound request, observed through the only field the handlers under
verification read. -/
structure Request where
  originalUrl : String
deriving Repr, DecidableEq

/-- Modelled from the spec: `CustomError` from
shared/globals/helpers/error-handler is not under src/ (only its import and
use are).  Per the spec a classified error carries a status code, a
human-readable message and a serializable payload. -/
structure CustomError where
  message : String
  statusCode : Nat
  status : String
deriving Repr, DecidableEq

/-- The structured payload a classified error serializes to. -/
structure ErrorPayload where
  message : String
  statusCode : Nat
  status : String
deriving Repr, DecidableEq

/-- Modelled from the spec: `serializeError()` returns the classified
error's structured payload, verbatim from its fields. -/
def CustomError.serializeError (e : CustomError) : ErrorPayload :=
  { message := e.message, statusCode := e.statusCode, status := e.status }

/-- A JSON response body: the catch-all sends a bare message object, the
error classifier sends a serialized error payload. -/
inductive Body
  | messageOnly (message : String)
  | errorPayload (p : ErrorPayload)
deriving Repr, DecidableEq

/-- A response as written by `res.status(...).json(...)`. -/
structure HttpResponse where
  status : Nat
  body : Body
deriving Repr, DecidableEq

/-- HTTP_STATUS.NOT_FOUND from the http-status-codes package. -/
def HTTP_STATUS_NOT_FOUND : Nat := 404

/-- Observable effect of running one Express handler on a request or error:
whether log.error ran, the response written (if any), and whether the
handler invoked next(). -/
structure HandlerEffect where
  loggedError : Bool
  response : Option HttpResponse
  calledNext : Bool
deriving Repr, DecidableEq

/-- The catch-all registered by globalErrorHandler via app.all on the
pattern matching every path: it answers 404 with a body naming
req.originalUrl, and does not call next, so nothing further runs for the
request. -/
def notFoundHandler (req : Request) : HandlerEffect :=
  { loggedError := false
    response := some { status := HTTP_STATUS_NOT_FOUND
                       body := Body.messageOnly (req.originalUrl ++ " not found.") }
    calledNext := false }

/-- An error reaching the four-argument error middleware: either an
instance of CustomError, or anything else (captured by a description). -/
inductive PipelineError
  | classified (e : CustomError)
  | unknown (description : String)
deriving Repr, DecidableEq

/-- The four-argument error middleware registered by globalErrorHandler:
it always runs log.error(error); if the error is an instance of
CustomError it writes res.status(error.statusCode).json(error.serializeError());
in every case it then calls next().  Note that for a non-CustomError no
response is written. -/
def globalErrorMiddleware (error : PipelineError) : HandlerEffect :=
  match error with
  | .classified e =>
      { loggedError := true
        response := some { status := e.statusCode
                           body := Body.errorPayload e.serializeError }
        calledNext := true }
  | .unknown _ =>
      { loggedError := true, response := none, calledNext := true }

/-- Result of awaiting one redis client connect() call. -/
inductive OpenResult
  | ok
  | err (msg : String)
deriving Repr, DecidableEq

/-- Steps taken by createSocketIO, in program order: construct the Server,
start the publish-client connect, start the subscribe-client connect,
await both via Promise.all, install the redis adapter. -/
inductive GatewayAction
  | newServer
  | initPubConnect
  | initSubConnect
  | awaitBoth
  | installAdapter
deriving Repr, DecidableEq

/-- The socket.io Server as far as this core observes it: its cors
configuration and whether the redis adapter has been installed. -/
structure SocketServer where
  corsOptions : CorsOptions
  adapterInstalled : Bool
deriving Repr, DecidableEq

/-- Promise.all over the two connect promises: it resolves only when both
resolve, and rejects as soon as either rejects. -/
def promiseAllBoth : OpenResult → OpenResult → Except String Unit
  | .ok, .ok => Except.ok ()
  | .err m, _ => Except.error m
  | .ok, .err m => Except.error m

/-- The method createSocketIO of ChattyServer: constructs the Server with the socket cors
options, creates the pub client and its duplicate sub client, initiates
both connect() calls (both promises are created in the array literal
before the single await), awaits them jointly with Promise.all, and only
then installs the adapter.  Returns the trace of actions taken and either
the server or the propagated rejection. -/
def createSocketIO (clientUrl : String) (pub sub : OpenResult) :
    List GatewayAction × Except String SocketServer :=
  match promiseAllBoth pub sub with
  | Except.ok _ =>
      ([GatewayAction.newServer, GatewayAction.initPubConnect,
        GatewayAction.initSubConnect, GatewayAction.awaitBoth,
        GatewayAction.installAdapter],
       Except.ok { corsOptions := socketCorsOptions clientUrl, adapterInstalled := true })
  | Except.error m =>
      ([GatewayAction.newServer, GatewayAction.initPubConnect,
        GatewayAction.initSubConnect, GatewayAction.awaitBoth],
       Except.error m)

/-- Outcome of one synchronous step inside startServer's try block. -/
inductive StepOutcome
  | ok
  | throws (msg : String)
deriving Repr, DecidableEq

/-- Observable effect of ChattyServer.startServer: whether the catch clause
ran log.error, whether the process exited, whether startHttpServer got to
run httpServer.listen, and whether socketIOConnections was reached. -/
structure StartServerEffect where
  caughtAndLogged : Bool
  exited : Bool
  httpListenerStarted : Bool
  socketConnectionsWired : Bool
deriving Repr, DecidableEq

/-- The try block of startServer: new http.Server(app); await
await createSocketIO (httpServer); startHttpServer(httpServer);
socketIOConnections(socketIO).  Returns the first failure (if any) and how
far execution got (listener started, connections wired). -/
def startServerTry (clientUrl : String) (pub sub : OpenResult)
    (listenStep wireStep : StepOutcome) : Option String × Bool × Bool :=
  match ( createSocketIO clientUrl pub sub).2 with
  | Except.error m => (some m, false, false)
  | Except.ok _ =>
      match listenStep with
      | .throws m => (some m, false, false)
      | .ok =>
          match wireStep with
          | .throws m => (some m, true, false)
          | .ok => (none, true, true)

/-- ChattyServer.startServer: runs the try block; any failure raised there
is caught by the catch clause, which only runs log.error(err) — it neither
rethrows nor exits the process.  The return type has no failure channel:
nothing propagates to the caller (ChattyServer.start). -/
def startServer (clientUrl : String) (pub sub : OpenResult)
    (listenStep wireStep : StepOutcome) : StartServerEffect :=
  let r := startServerTry clientUrl pub sub listenStep wireStep
  { caughtAndLogged := r.1.isSome
    exited := false
    httpListenerStarted := r.2.1
    socketConnectionsWired := r.2.2 }

theorem emitStep_other (outcomes : Nat → ConnectOutcome) (s : SupState)
    (ev : String) (hev : ev ≠ registeredDisconnectEvent) :
    emitStep outcomes s ev = s := by
  unfold emitStep
  by_cases hx : s.exitCode.isSome
  · simp [hx]
  · simp [hx, hev]

theorem foldl_emit_disconnected (outcomes : Nat → ConnectOutcome)
    (s : SupState) (n : Nat) :
    (List.replicate n mongooseDisconnectedEvent).foldl (emitStep outcomes) s = s := by
  induction n generalizing s with
  | zero => rfl
  | succ k ih =>
      rw [List.replicate_succ, List.foldl_cons,
        emitStep_other outcomes s mongooseDisconnectedEvent (by decide)]
      exact ih s

/-- Claim C2: if the initial persistent-store connection attempt fails, the
supervisor logs the error and terminates the process with exit code 1, and
no reconnect attempt is made before termination (`connect` ran exactly once,
so zero reconnects, and the only log line is the error line). -/
theorem c2_initial_failure_fatal (outcomes : Nat → ConnectOutcome)
    (events : List String) (h0 : outcomes 0 = ConnectOutcome.failure) :
    (setupDatabase outcomes events).exitCode = some 1 ∧
    (setupDatabase outcomes events).connectCalls = 1 ∧
    (setupDatabase outcomes events).logs = [dbErrMsg] := by
  unfold setupDatabase
  rw [h0]
  have hstep : connectStep ConnectOutcome.failure
      { connectCalls := 0, exitCode := none, logs := [] } =
      { connectCalls := 1, exitCode := some 1, logs := [dbErrMsg] } := by
    simp [connectStep]
  rw [hstep]
  have hfold : ∀ evs : List String,
      evs.foldl (emitStep outcomes)
        { connectCalls := 1, exitCode := some 1, logs := [dbErrMsg] } =
        { connectCalls := 1, exitCode := some 1, logs := [dbErrMsg] } := by
    intro evs
    induction evs with
    | nil => rfl
    | cons e rest ih =>
        rw [List.foldl_cons]
        have : emitStep outcomes
            { connectCalls := 1, exitCode := some 1, logs := [dbErrMsg] } e =
            { connectCalls := 1, exitCode := some 1, logs := [dbErrMsg] } := by
          simp [emitStep]
        rw [this, ih]
  rw [hfold]
  exact ⟨rfl, rfl, rfl⟩

/-- Witness for claim C2: with an oracle that fails every attempt and one
subsequent emitted event, the supervisor exits with code 1, `connect` ran
once, and only the error line was logged. -/
theorem c2_initial_failure_fatal_witness :
    (setupDatabase (fun _ => ConnectOutcome.failure) ["disconnected"]).exitCode = some 1 ∧
    (setupDatabase (fun _ => ConnectOutcome.failure) ["disconnected"]).connectCalls = 1 ∧
    (setupDatabase (fun _ => ConnectOutcome.failure) ["disconnected"]).logs = [dbErrMsg] :=
  c2_initial_failure_fatal (fun _ => ConnectOutcome.failure) ["disconnected"] rfl

/-- Claim C1 (code bug): after a successful initial connect, one mongoose
disconnect notification — the emission of the event named "disconnected" —
triggers no reconnect at all, because setupDatabase.ts registered the
`connect` handler under the log-message string
"[*] MongoDb disconnected, trying to reconnect..." instead of the event
name "disconnected".  So N = 1 disconnect notifications yield 0 reconnect
attempts, not 1: `connect` still ran only once. -/
theorem c1_disconnect_never_triggers_reconnect :
    (setupDatabase (fun _ => ConnectOutcome.success)
        (List.replicate 1 mongooseDisconnectedEvent)).reconnects = 0 ∧
    (setupDatabase (fun _ => ConnectOutcome.success)
        (List.replicate 1 mongooseDisconnectedEvent)).connectCalls = 1 ∧
    registeredDisconnectEvent ≠ mongooseDisconnectedEvent := by
  exact ⟨by decide, by decide, by decide⟩

/-- Claim C8: ChattyServer.start registers the pipeline stages in the fixed
order security → body/size normalization → route dispatch → not-found
catch-all → error classifier last; the list is a constant, so the order is
the same for every request. -/
theorem c8_pipeline_stage_order :
    startStages =
      [Stage.cookieSession, Stage.hpp, Stage.helmet, Stage.cors,
       Stage.compression, Stage.json, Stage.urlencoded, Stage.routes,
       Stage.notFoundCatchAll, Stage.errorClassifier] ∧
    startStages.getLast? = some Stage.errorClassifier ∧
    List.Pairwise (fun a b => Stage.phase a ≤ Stage.phase b) startStages := by
  refine ⟨rfl, rfl, ?_⟩
  decide

/-- Claim C9: the socket.io transport of createSocketIO is configured with
the same allowed origin and the same allowed verbs as the cors stage of
securityMiddleware. -/
theorem c9_cors_policies_match (clientUrl : String) :
    (socketCorsOptions clientUrl).origin = (httpCorsOptions clientUrl).origin ∧
    (socketCorsOptions clientUrl).methods = (httpCorsOptions clientUrl).methods :=
  ⟨rfl, rfl⟩

/-- Claim C7: the app.all catch-all answers every unmatched request with
status 404 and a body naming the request's originalUrl, and calls no
further handler (next is not invoked); in particular "/nope" gets a 404
whose body names "/nope". -/
theorem c7_not_found_catch_all (req : Request) :
    notFoundHandler req =
      { loggedError := false
        response := some { status := HTTP_STATUS_NOT_FOUND
                           body := Body.messageOnly (req.originalUrl ++ " not found.") }
        calledNext := false } ∧
    HTTP_STATUS_NOT_FOUND = 404 ∧
    (notFoundHandler { originalUrl := "/nope" }).response =
      some { status := 404, body := Body.messageOnly "/nope not found." } :=
  ⟨rfl, rfl, rfl⟩

/-- Claim C6: for every classified error the error middleware logs it and
responds with exactly the carried status code and the serialized payload;
in particular a classified 403 with message "forbidden" yields response
status 403 with that message in the body. -/
theorem c6_classified_error_verbatim (e : CustomError) :
    globalErrorMiddleware (PipelineError.classified e) =
      { loggedError := true
        response := some { status := e.statusCode
                           body := Body.errorPayload e.serializeError }
        calledNext := true } ∧
    (globalErrorMiddleware (PipelineError.classified
        { message := "forbidden", statusCode := 403, status := "error" })).response =
      some { status := 403
             body := Body.errorPayload
               { message := "forbidden", statusCode := 403, status := "error" } } :=
  ⟨rfl, rfl⟩

/-- Claim C5 (code bug): on a concrete unclassified error the middleware
does log at error severity and raises nothing further, but it writes no
response at all — it only calls next() — contradicting the claim that a
response is still emitted to the client. -/
theorem c5_unclassified_error_gets_no_response :
    globalErrorMiddleware (PipelineError.unknown "boom") =
      { loggedError := true, response := none, calledNext := true } :=
  rfl

/-- Claim C3: createSocketIO initiates both broker connects before the
single await point, installs the adapter exactly when both report ready,
and on any failure returns the rejection to the caller with the adapter
never installed (the ok result, when present, is the server with the
adapter installed; otherwise there is no server at all). -/
theorem c3_fanout_attach_ordering (clientUrl : String) (pub sub : OpenResult) :
    ( createSocketIO clientUrl pub sub).1.take 4 =
      [GatewayAction.newServer, GatewayAction.initPubConnect,
       GatewayAction.initSubConnect, GatewayAction.awaitBoth] ∧
    (GatewayAction.installAdapter ∈ ( createSocketIO clientUrl pub sub).1 ↔
      pub = OpenResult.ok ∧ sub = OpenResult.ok) ∧
    (( createSocketIO clientUrl pub sub).2.toOption =
      if pub = OpenResult.ok ∧ sub = OpenResult.ok then
        some { corsOptions := socketCorsOptions clientUrl, adapterInstalled := true }
      else none) := by
  cases pub <;> cases sub <;>
    simp [ createSocketIO, promiseAllBoth, Except.toOption]

/-- Claim C4, amended: when opening either broker handle fails, startServer
catches the failure and logs it without exiting the process, but it skips
the rest of the try block, so the HTTP listener is never started and the
pipeline serves nothing — there is no degraded HTTP-only operation. -/
theorem c4_broker_failure_logged_but_no_listener (clientUrl : String)
    (pub sub : OpenResult) (listenStep wireStep : StepOutcome)
    (h : ( createSocketIO clientUrl pub sub).2.isOk = false) :
    startServer clientUrl pub sub listenStep wireStep =
      { caughtAndLogged := true, exited := false,
        httpListenerStarted := false, socketConnectionsWired := false } := by
  cases pub <;> cases sub <;>
    simp_all [ createSocketIO, promiseAllBoth, Except.isOk, Except.toBool,
      startServer, startServerTry]

/-- Witness for claim C4's amended theorem: a failing publish handle with
everything else fine yields the logged, non-exited, listener-not-started
effect. -/
theorem c4_broker_failure_logged_but_no_listener_witness :
    ( createSocketIO "http://localhost:3000" (OpenResult.err "ECONNREFUSED")
        OpenResult.ok).2.isOk = false ∧
    startServer "http://localhost:3000" (OpenResult.err "ECONNREFUSED")
        OpenResult.ok StepOutcome.ok StepOutcome.ok =
      { caughtAndLogged := true, exited := false,
        httpListenerStarted := false, socketConnectionsWired := false } :=
  ⟨rfl, c4_broker_failure_logged_but_no_listener "http://localhost:3000"
    (OpenResult.err "ECONNREFUSED") OpenResult.ok StepOutcome.ok StepOutcome.ok rfl⟩

/-- Counterexample to claim C4 as stated: with a failing publish handle the
failure is indeed logged without process exit, but the HTTP listener is
not brought up (httpListenerStarted is false), so the HTTP pipeline cannot
serve non-real-time traffic. -/
theorem c4_counterexample_no_degraded_service :
    (startServer "http://localhost:3000" (OpenResult.err "ECONNREFUSED")
        OpenResult.ok StepOutcome.ok StepOutcome.ok).caughtAndLogged = true ∧
    (startServer "http://localhost:3000" (OpenResult.err "ECONNREFUSED")
        OpenResult.ok StepOutcome.ok StepOutcome.ok).exited = false ∧
    (startServer "http://localhost:3000" (OpenResult.err "ECONNREFUSED")
        OpenResult.ok StepOutcome.ok StepOutcome.ok).httpListenerStarted = false :=
  ⟨rfl, rfl, rfl⟩

/-- Claim C10: startServer catches every failure of the startup path —
socket construction and broker opens, the listen step, the wiring step —
logs it and never rethrows or exits: the catch clause runs exactly when
some step failed, and the effect never records a process exit; the plain
return type carries no exception to ChattyServer.start. -/
theorem c10_startServer_catches_all (clientUrl : String) (pub sub : OpenResult)
    (listenStep wireStep : StepOutcome) :
    (startServer clientUrl pub sub listenStep wireStep).exited = false ∧
    ((startServer clientUrl pub sub listenStep wireStep).caughtAndLogged = true ↔
      ¬ (pub = OpenResult.ok ∧ sub = OpenResult.ok ∧
         listenStep = StepOutcome.ok ∧ wireStep = StepOutcome.ok)) := by
  cases pub <;> cases sub <;> cases listenStep <;> cases wireStep <;>
    simp [startServer, startServerTry, createSocketIO, promiseAllBoth]

end TalkTheTalk
